import Mathlib

/-!
Shallow embedding of the core of variant-explorer-api: the `OutputFormatter`
record normalizer (src/variant_explorer/formatter.py) and the `EnsemblAPI`
rate-limited request dispatcher (src/variant_explorer/ensembl_api.py),
together with theorems settling the frozen specification claims.

Python dictionaries from the upstream JSON are embedded as structures whose
fields are `Option`-typed: `none` models an absent key, `some v` a present
value.  Python `dict.get(k, d)` becomes `Option.getD`, the truthiness test
`if x:` on an optional list becomes `pyTruthy`, and on an optional string
`pyTruthyStr`.  Python `str` on an int inside an f-string becomes
`optIntStr`.  Time is modelled with rationals; the wall clock and the HTTP
status are explicit inputs of the dispatcher step function.
-/

namespace VariantExplorer

/-- A Python scalar value as it appears in heterogeneous dict values:
a string, an int, or a (floating-point) number, the latter modelled as a
rational. -/
inductive PyScalar where
  | s (v : String)
  | i (v : Int)
  | q (v : ℚ)
deriving DecidableEq, Repr

/-- The error raised by an out-of-range subscript (`list[i]`) in Python. -/
inductive PyError where
  | indexError
deriving DecidableEq, Repr

/-- Truthiness of an optional Python list argument (default `None`):
`None` and `[]` are falsy, a non-empty list is truthy. -/
def pyTruthy {α : Type} : Option (List α) → Bool
  | some (_ :: _) => true
  | _ => false

/-- Truthiness of an optional Python string value: absent and `""` are
falsy, a non-empty string is truthy. -/
def pyTruthyStr : Option String → Bool
  | some v => v ≠ ""
  | none => false

/-- `str(x)` of an optional int inside an f-string, with `""` for a value
that was defaulted to the empty string by `dict.get(k, '')`. -/
def optIntStr : Option Int → String
  | some n => toString n
  | none => ""

/-! ### Character-level models of the Python string primitives used -/

/-- `str.split(sep)` for a one-character separator, on the character list.
`[]` input yields `[[]]`, matching Python where `"".split(c) == [""]`. -/
def splitCharAux (sep : Char) : List Char → List (List Char)
  | [] => [[]]
  | c :: rest =>
    match splitCharAux sep rest with
    | [] => if c = sep then [[], []] else [[c]]
    | h :: t => if c = sep then [] :: h :: t else (c :: h) :: t

/-- Python `s.split(sep)` for a one-character separator. -/
def pySplit (s : String) (sep : Char) : List String :=
  (splitCharAux sep s.data).map (fun l => String.mk l)

/-- Python `s.replace("chr", "")`: removes every occurrence of the
three-character pattern `chr`, scanning left to right. -/
def removeChrAux : List Char → List Char
  | 'c' :: 'h' :: 'r' :: rest => removeChrAux rest
  | c :: rest => c :: removeChrAux rest
  | [] => []

/-- Python `s.replace("chr", "")` on strings. -/
def pyRemoveChr (s : String) : String := String.mk (removeChrAux s.data)

/-- Python `s.replace("/", "to")`: replaces every slash by the literal
`to`. -/
def replaceSlashToAux : List Char → List Char
  | '/' :: rest => 't' :: 'o' :: replaceSlashToAux rest
  | c :: rest => c :: replaceSlashToAux rest
  | [] => []

/-- Python `s.replace("/", "to")` on strings. -/
def pyReplaceSlashTo (s : String) : String := String.mk (replaceSlashToAux s.data)

/-! ### Data model of the gene side (formatter.py, format_gene_data) -/

/-- One entry of a cross-reference (`xrefs/id/...`) response, as consumed
by `format_gene_data` for both `gene_function` and `gene_pathways`: only
the `dbname` and `description` keys are read. -/
structure XrefTerm where
  dbname : Option String := none
  description : Option String := none
deriving DecidableEq, Repr

/-- One entry of the `Transcript` list of a gene response. -/
structure TranscriptInfo where
  id : Option String := none
  display_name : Option String := none
  biotype : Option String := none
  is_canonical : Option Bool := none
deriving DecidableEq, Repr

/-- The nested `phenotype` object of a phenotype-association entry. -/
structure PhenotypeObj where
  description : Option String := none
deriving DecidableEq, Repr

/-- The nested `source` object of a phenotype-association entry. -/
structure PhenoSource where
  name : Option String := none
deriving DecidableEq, Repr

/-- One entry of a phenotype-association response, as consumed by
`format_gene_data`. -/
structure PhenotypeEntry where
  phenotype : Option PhenotypeObj := none
  source : Option PhenoSource := none
deriving DecidableEq, Repr

/-- The gene response mapping, restricted to the keys `format_gene_data`
reads.  `end_` models the JSON key `end` (a Lean keyword). -/
structure GeneInfo where
  display_name : Option String := none
  id : Option String := none
  description : Option String := none
  seq_region_name : Option String := none
  start : Option Int := none
  end_ : Option Int := none
  biotype : Option String := none
  Transcript : Option (List TranscriptInfo) := none
deriving DecidableEq, Repr

/-- One entry of the `transcripts` list of the formatted output. -/
structure FormattedTranscript where
  transcript_id : String
  transcript_name : String
  biotype : String
  is_canonical : Bool
deriving DecidableEq, Repr

/-- One entry of the `phenotypes` list of the formatted output. -/
structure FormattedPhenotype where
  description : String
  source : String
deriving DecidableEq, Repr

/-- The mapping returned by `format_gene_data`.  The five base keys are
always present; an `Option` field being `none` models the key being absent
from the returned dict. -/
structure FormattedGene where
  gene_symbol : String
  gene_id : String
  description : String
  location : String
  biotype : String
  function : Option String := none
  pathways : Option String := none
  transcripts : Option (List FormattedTranscript) := none
  phenotypes : Option (List FormattedPhenotype) := none
deriving DecidableEq, Repr

/-- `OutputFormatter.format_gene_data` (formatter.py lines 17-80).
Each conditional block of the Python function that adds a key to the
result dict becomes the corresponding `Option` field of the record. -/
def formatGeneData (gene_info : GeneInfo)
    (gene_function : Option (List XrefTerm) := none)
    (gene_pathways : Option (List XrefTerm) := none)
    (include_transcripts : Bool := false)
    (include_phenotypes : Option (List PhenotypeEntry) := none) : FormattedGene :=
  { gene_symbol := gene_info.display_name.getD ""
    gene_id := gene_info.id.getD ""
    description := gene_info.description.getD ""
    location := gene_info.seq_region_name.getD "" ++ ":" ++ optIntStr gene_info.start
      ++ "-" ++ optIntStr gene_info.end_
    biotype := gene_info.biotype.getD ""
    function :=
      if pyTruthy gene_function then
        let go_terms := (gene_function.getD []).filter (fun t => t.dbname == some "GO")
        let functions := (go_terms.filter (fun t => pyTruthyStr t.description)).map
          (fun t => t.description.getD "")
        some (if functions.isEmpty then "" else String.intercalate ", " functions)
      else none
    pathways :=
      if pyTruthy gene_pathways then
        let pathwayList := ((gene_pathways.getD []).filter
          (fun p => (p.dbname == some "Reactome" || p.dbname == some "KEGG")
            && pyTruthyStr p.description)).map (fun p => p.description.getD "")
        some (if pathwayList.isEmpty then "" else String.intercalate ", " pathwayList)
      else none
    transcripts :=
      if include_transcripts && gene_info.Transcript.isSome then
        some ((gene_info.Transcript.getD []).map (fun tr =>
          { transcript_id := tr.id.getD ""
            transcript_name := tr.display_name.getD ""
            biotype := tr.biotype.getD ""
            is_canonical := tr.is_canonical.getD false }))
      else none
    phenotypes :=
      if pyTruthy include_phenotypes then
        some (((include_phenotypes.getD []).filter
          (fun p => pyTruthyStr (p.phenotype.getD {}).description)).map (fun p =>
            { description := ((p.phenotype.getD {}).description.getD "" : String)
              source := (p.source.getD {}).name.getD "" }))
      else none }

/-! ### Data model of the variant side (formatter.py, format_variant_data) -/

/-- A nested frequency table: source name to (population/allele code to
frequency value), embedding the Python dict of dicts as ordered
association lists. -/
def FreqTable : Type := List (String × List (String × ℚ))

instance : DecidableEq FreqTable := by
  unfold FreqTable
  infer_instance

/-- One entry of `colocated_variants`: only the `frequencies` key is read
by `format_variant_data`. -/
structure ColocatedVariant where
  frequencies : Option FreqTable := none
deriving DecidableEq

/-- One entry of `transcript_consequences`, restricted to the keys read. -/
structure TranscriptConsequence where
  amino_acids : Option String := none
  protein_start : Option Int := none
deriving DecidableEq

/-- The first element of a VEP variant response, restricted to the keys
`format_variant_data` reads. -/
structure VariantFirst where
  id : Option String := none
  seq_region_name : Option String := none
  start : Option Int := none
  allele_string : Option String := none
  most_severe_consequence : Option String := none
  transcript_consequences : Option (List TranscriptConsequence) := none
  clinical_significance : Option (List String) := none
  colocated_variants : Option (List ColocatedVariant) := none
deriving DecidableEq

/-- The `variant_info` argument of `format_variant_data` as a Python
value: `None`, a list, or any non-list value (`pyother`). -/
inductive VariantInfo where
  | pynone
  | pylist (items : List VariantFirst)
  | pyother
deriving DecidableEq

/-- The mapping returned by `format_variant_data`.  All fields are
`Option`-typed so that the empty dict `{}` returned on the fail-closed
path is the record with every field `none`. -/
structure FormattedVariant where
  variant_id : Option String := none
  location : Option String := none
  reference : Option String := none
  alternate : Option String := none
  variant_effect : Option String := none
  consequence : Option String := none
  clinical_significance : Option String := none
  global_frequency : Option PyScalar := none
  population_frequencies : Option FreqTable := none
deriving DecidableEq

/-- Python `d.get(alt, "")` on a frequency map whose values are numbers:
the looked-up number, or the empty string when the key is absent. -/
def freqGet (m : List (String × ℚ)) (alt : String) : PyScalar :=
  match m.lookup alt with
  | some v => PyScalar.q v
  | none => PyScalar.s ""

/-- The global-frequency loop of `format_variant_data` (formatter.py
lines 126-138): scans `colocated_variants` in order; each entry with a
`frequencies` map overwrites the accumulated value, taking the `gnomAD`
source if present, else `1000GENOMES` if present, else leaving the
accumulator unchanged.  `none` models the `global_frequency` key never
having been written. -/
def globalFrequency (alt : String) (colocs : List ColocatedVariant) : Option PyScalar :=
  colocs.foldl (fun acc colocated =>
    match colocated.frequencies with
    | none => acc
    | some freqs =>
      match freqs.lookup "gnomAD" with
      | some gnomad => some (freqGet gnomad alt)
      | none =>
        match freqs.lookup "1000GENOMES" with
        | some genomes_1k => some (freqGet genomes_1k alt)
        | none => acc) none

/-- Python `population_data[source][pop] = freq` on the ordered
association-list embedding of a dict: replaces the first binding of the
key in place, or appends a new binding at the end (dict insertion
order). -/
def dictSet {α : Type} (d : List (String × α)) (k : String) (v : α) : List (String × α) :=
  if d.any (fun p => p.1 == k) then
    d.map (fun p => if p.1 == k then (k, v) else p)
  else d ++ [(k, v)]

/-- The population-frequency merge of `format_variant_data` (formatter.py
lines 141-149): every source and population key found across all
colocated entries, later entries overwriting same-key earlier ones. -/
def mergePopulations (colocs : List ColocatedVariant) : FreqTable :=
  colocs.foldl (fun pd colocated =>
    match colocated.frequencies with
    | none => pd
    | some freqs =>
      freqs.foldl (fun pd sf =>
        let sourceData := ((pd : FreqTable).lookup sf.1).getD []
        let merged := sf.2.foldl (fun sd pf => dictSet sd pf.1 pf.2) sourceData
        dictSet pd sf.1 merged) pd) []

/-- `OutputFormatter.format_variant_data` (formatter.py lines 82-154).
Returns `Except.error PyError.indexError` exactly where the Python code
raises `IndexError` (subscript `[1]` on the allele split, lines 104-105);
each conditional key addition becomes an `Option` field. -/
def formatVariantData (variant_info : VariantInfo)
    (include_populations : Bool := false) : Except PyError FormattedVariant :=
  match variant_info with
  | .pynone => .ok {}
  | .pyother => .ok {}
  | .pylist [] => .ok {}
  | .pylist (first_variant :: _) =>
    let parts := pySplit (first_variant.allele_string.getD "") '/'
    if parts.length < 2 then .error .indexError
    else
      .ok {
        variant_id := some (first_variant.id.getD "")
        location := some (first_variant.seq_region_name.getD "" ++ ":"
          ++ optIntStr first_variant.start)
        reference := some (parts.getD 0 "")
        alternate := some (parts.getD 1 "")
        variant_effect := some (first_variant.most_severe_consequence.getD "")
        consequence :=
          match first_variant.transcript_consequences with
          | some (first_consequence :: _) =>
            if first_consequence.protein_start.isSome
                && first_consequence.amino_acids.isSome then
              some ("p." ++ pyReplaceSlashTo (first_consequence.amino_acids.getD "")
                ++ optIntStr first_consequence.protein_start)
            else none
          | _ => none
        clinical_significance :=
          (first_variant.clinical_significance).map (String.intercalate ", ")
        global_frequency :=
          match first_variant.colocated_variants with
          | some colocs => globalFrequency (parts.getD 1 "") colocs
          | none => none
        population_frequencies :=
          if include_populations && first_variant.colocated_variants.isSome then
            let population_data := mergePopulations (first_variant.colocated_variants.getD [])
            if population_data.isEmpty then none else some population_data
          else none }

/-! ### The rate-limited request dispatcher (ensembl_api.py) -/

/-- The mutable state of an `EnsemblAPI` instance that the dispatcher
touches: the configured minimum interval and the time of the last
request.  `__init__` sets `last_request_time = 0`. -/
structure EnsemblAPI where
  rate_limit : ℚ := 1/10
  last_request_time : ℚ := 0
deriving DecidableEq

/-- `EnsemblAPI.__init__` (ensembl_api.py lines 18-31). -/
def EnsemblAPI.init (rate_limit : ℚ := 1/10) : EnsemblAPI :=
  { rate_limit := rate_limit, last_request_time := 0 }

/-- The single outbound request an accessor asks `_make_request` to
issue: endpoint path and query parameters. -/
structure RequestSpec where
  endpoint : String
  params : List (String × PyScalar) := []
deriving DecidableEq

/-- Observable outcome of one `_make_request` call: whether and how long
it slept, whether `raise_for_status` raised, and the dispatcher state
after the call. -/
structure RequestEvent where
  slept : Bool
  sleep_before : ℚ
  raised : Bool
  nextState : EnsemblAPI
deriving DecidableEq

/-- `EnsemblAPI._make_request` (ensembl_api.py lines 33-59) with the
clock explicit: `now` is the value of `time.time()` at line 48, `latency`
(nonnegative in reality) the network-call duration, so line 56 reads the
clock at `now + sleep_before + latency`; `status_ok` tells whether
`raise_for_status` at line 58 raises.  The state update at line 56
happens before line 58, so `nextState` is the same whether or not the
call raises. -/
def makeRequest (api : EnsemblAPI) (now latency : ℚ) (status_ok : Bool) : RequestEvent :=
  let time_since_last_request := now - api.last_request_time
  let sleep_before :=
    if time_since_last_request < api.rate_limit then
      api.rate_limit - time_since_last_request
    else 0
  { slept := decide (time_since_last_request < api.rate_limit)
    sleep_before := sleep_before
    raised := !status_ok
    nextState := { api with last_request_time := now + sleep_before + latency } }

/-- The fixed query parameters of the VEP endpoint (ensembl_api.py lines
137-144). -/
def vepParams : List (String × PyScalar) :=
  [("variant_class", .i 1), ("regulatory", .i 1), ("clinical_significance", .i 1),
   ("af", .i 1), ("af_1kg", .i 1), ("af_gnomad", .i 1)]

/-- `EnsemblAPI.get_variant_info` (ensembl_api.py lines 117-145), up to
the single dispatched request: parses the variant descriptor and returns
the `RequestSpec` passed to `_make_request`, or the `IndexError` the
subscripts on lines 130-131 raise when the split yields fewer than four
fields. -/
def getVariantInfo (variant : String) (assembly : String := "GRCh38") :
    Except PyError RequestSpec :=
  let parts := pySplit (pyRemoveChr variant) ':'
  if parts.length < 4 then .error .indexError
  else
    let chrom := parts.getD 0 ""
    let pos := parts.getD 1 ""
    let ref := parts.getD 2 ""
    let alt := parts.getD 3 ""
    let region := chrom ++ ":" ++ pos ++ ":" ++ pos
    let allele := ref ++ "/" ++ alt
    .ok { endpoint := "vep/human/" ++ assembly ++ "/" ++ region ++ "/" ++ allele
          params := vepParams }

/-- `EnsemblAPI.get_variant_consequences` (ensembl_api.py lines 147-159):
delegates to `get_variant_info` unchanged. -/
def getVariantConsequences (variant : String) (assembly : String := "GRCh38") :
    Except PyError RequestSpec :=
  getVariantInfo variant assembly

/-! ### Spec-side definitions and concrete fixtures -/

/-- The function summary as the spec words it: the `", "`-join of the
non-empty descriptions of exactly those entries whose database-name field
equals `GO`. -/
def goFunctionSummary (terms : List XrefTerm) : String :=
  String.intercalate ", " ((terms.filter
    (fun t => t.dbname == some "GO" && pyTruthyStr t.description)).map
    (fun t => t.description.getD ""))

/-- A variant response element whose first colocated entry carries a
gnomAD frequency and whose second carries a 1000GENOMES frequency for the
alternate allele `A`. -/
def splitSourcesVariant : VariantFirst :=
  { allele_string := some "G/A"
    colocated_variants := some [{ frequencies := some [("gnomAD", [("A", 1/10)])] },
      { frequencies := some [("1000GENOMES", [("A", 1/5)])] }] }

/-- A colocated entry whose frequency map carries both a gnomAD and a
1000GENOMES value for the alternate allele `A`. -/
def bothEntry : ColocatedVariant :=
  { frequencies := some [("gnomAD", [("A", 1/10)]), ("1000GENOMES", [("A", 1/5)])] }

/-- A variant response element with a single colocated entry whose
frequency map carries both a gnomAD and a 1000GENOMES value for the
alternate allele `A`. -/
def bothSourcesVariant : VariantFirst :=
  { allele_string := some "G/A"
    colocated_variants := some [bothEntry] }

/-- A variant response element with only an allele string `G/A`. -/
def alleleOnlyVariant : VariantFirst :=
  { allele_string := some "G/A" }

/-- A variant response element with allele string `G/A` and one
transcript consequence with amino acids `R/Q` at protein position 1699
(the fixture of test_formatter.py). -/
def consequenceVariant : VariantFirst :=
  { allele_string := some "G/A"
    transcript_consequences := some [{ amino_acids := some "R/Q", protein_start := some 1699 }] }

/-! ### Helper lemmas -/

/-- Successive filtering by database name and then by non-empty
description equals a single filter by the conjunction. -/
theorem goFilter_eq (l : List XrefTerm) :
    (l.filter (fun t => t.dbname == some "GO")).filter
      (fun t => pyTruthyStr t.description) =
    l.filter (fun t => t.dbname == some "GO" && pyTruthyStr t.description) := by
  induction l with
  | nil => rfl
  | cons h t ih =>
    by_cases h1 : h.dbname == some "GO" <;>
      by_cases h2 : pyTruthyStr h.description <;>
      simp [List.filter_cons, h1, h2, ih]

/-- The empty-list guard in the join collapses: joining the empty list
already yields the empty string. -/
theorem intercalate_empty_guard (l : List String) :
    (if l.isEmpty then "" else String.intercalate ", " l) = String.intercalate ", " l := by
  cases l <;> simp [String.intercalate]

/-! ### Claim theorems -/

/-- C5: for every gene_info mapping, including the empty mapping,
format_gene_data does not raise (it is total), its result carries the
five base fields gene_symbol, gene_id, description, location and biotype
with every missing source field defaulting to the empty string, the
location field is always the composed string chrom:start-end, and the
empty mapping yields location ":-". -/
theorem formatGeneData_base_fields (gi : GeneInfo) (gf gp : Option (List XrefTerm))
    (it : Bool) (ph : Option (List PhenotypeEntry)) :
    (formatGeneData gi gf gp it ph).gene_symbol = gi.display_name.getD "" ∧
    (formatGeneData gi gf gp it ph).gene_id = gi.id.getD "" ∧
    (formatGeneData gi gf gp it ph).description = gi.description.getD "" ∧
    (formatGeneData gi gf gp it ph).biotype = gi.biotype.getD "" ∧
    (formatGeneData gi gf gp it ph).location =
      gi.seq_region_name.getD "" ++ ":" ++ optIntStr gi.start ++ "-" ++ optIntStr gi.end_ ∧
    (formatGeneData {} none none false none).location = ":-" :=
  ⟨rfl, rfl, rfl, rfl, rfl, rfl⟩

/-- C1 counterexample: supplying the function-terms argument as the empty
list makes format_gene_data omit the "function" key entirely (the Python
truthiness test on the argument is false), refuting the claim that the
key is always present with value "" once the argument is supplied. -/
theorem formatGeneData_empty_function_omits_key :
    (formatGeneData {} (some []) none false none).function = none := rfl

/-- C1 amended: when the function-terms argument is supplied as a
non-empty list, the returned record carries the "function" key whose
value is the ", "-join of the non-empty descriptions of exactly those
entries whose dbname equals "GO" (the empty string when no entry
qualifies); when the argument is the empty list or not supplied (None),
the key is omitted. -/
theorem formatGeneData_function_field (gi : GeneInfo) (gp : Option (List XrefTerm))
    (it : Bool) (ph : Option (List PhenotypeEntry)) (t : XrefTerm) (ts : List XrefTerm) :
    (formatGeneData gi (some (t :: ts)) gp it ph).function =
      some (goFunctionSummary (t :: ts)) ∧
    (formatGeneData gi (some []) gp it ph).function = none ∧
    (formatGeneData gi none gp it ph).function = none := by
  refine ⟨?_, rfl, rfl⟩
  rw [goFunctionSummary, ← goFilter_eq]
  exact congrArg some (intercalate_empty_guard _)

/-- C6: format_variant_data applied to None, to a non-list value, or to
the empty list returns the empty record (every field absent) and never
raises. -/
theorem formatVariantData_fail_closed (ip : Bool) :
    formatVariantData .pynone ip = .ok {} ∧
    formatVariantData .pyother ip = .ok {} ∧
    formatVariantData (.pylist []) ip = .ok {} :=
  ⟨rfl, rfl, rfl⟩

/-- C9: a _make_request call whose HTTP status is a failure still
propagates the error only after last_request_time has been updated to the
post-response time: the raised flag is set, and the successor state is
exactly the successor state of the same call with a success status, its
last_request_time being the post-response clock value. -/
theorem makeRequest_failure_updates_clock (api : EnsemblAPI) (now lat : ℚ) :
    (makeRequest api now lat false).raised = true ∧
    (makeRequest api now lat false).nextState = (makeRequest api now lat true).nextState ∧
    (makeRequest api now lat false).nextState.last_request_time =
      now + (makeRequest api now lat false).sleep_before + lat :=
  ⟨rfl, rfl, rfl⟩

/-- C10: get_variant_consequences is extensionally equal to
get_variant_info: on every variant descriptor and assembly it returns
exactly the same result, error or request. -/
theorem getVariantConsequences_eq_getVariantInfo (variant assembly : String) :
    getVariantConsequences variant assembly = getVariantInfo variant assembly := rfl

/-- C2 counterexample: a descriptor splitting into five colon-separated
fields does not fail — the extra field is silently ignored — refuting
"fails with a format error if the result is not exactly four fields";
and the substring "chr" is removed anywhere in the string, not only as a
prefix: with last field "chrA" the alternate allele becomes "A", where a
prefix strip would give "chrA". -/
theorem getVariantInfo_counterexample :
    (pySplit (pyRemoveChr "1:2:A:C:XX") ':').length = 5 ∧
    getVariantInfo "1:2:A:C:XX" "GRCh38" =
      .ok { endpoint := "vep/human/GRCh38/1:2:2/A/C", params := vepParams } ∧
    getVariantInfo "17:41:G:chrA" "GRCh38" =
      .ok { endpoint := "vep/human/GRCh38/17:41:41/G/A", params := vepParams } :=
  ⟨rfl, rfl, rfl⟩

/-- C2 amended: get_variant_info removes every occurrence of the literal
"chr" from the input and splits the result on ":"; it fails with an index
error exactly when the split yields fewer than four fields, and otherwise
issues, without raising, one request to endpoint
vep/human/{assembly}/{chrom}:{pos}:{pos}/{ref}/{alt} built from the first
four fields, ignoring any extra fields. -/
theorem getVariantInfo_parse (variant assembly : String) :
    ((pySplit (pyRemoveChr variant) ':').length < 4 →
      getVariantInfo variant assembly = .error .indexError) ∧
    (4 ≤ (pySplit (pyRemoveChr variant) ':').length →
      getVariantInfo variant assembly = .ok
        { endpoint := "vep/human/" ++ assembly ++ "/"
            ++ ((pySplit (pyRemoveChr variant) ':').getD 0 "" ++ ":"
              ++ (pySplit (pyRemoveChr variant) ':').getD 1 "" ++ ":"
              ++ (pySplit (pyRemoveChr variant) ':').getD 1 "") ++ "/"
            ++ ((pySplit (pyRemoveChr variant) ':').getD 2 "" ++ "/"
              ++ (pySplit (pyRemoveChr variant) ':').getD 3 "")
          params := vepParams }) := by
  constructor
  · intro h
    simp [getVariantInfo, h]
  · intro h
    simp [getVariantInfo, Nat.not_lt.mpr h]

/-- C2 witness: a four-field descriptor with leading "chr" yields the
documented request, a two-field descriptor the index error. -/
theorem getVariantInfo_parse_witness :
    getVariantInfo "chr17:41245466:G:A" "GRCh38" =
      .ok { endpoint := "vep/human/GRCh38/17:41245466:41245466/G/A", params := vepParams } ∧
    getVariantInfo "1:2" "GRCh38" = .error .indexError :=
  ⟨(getVariantInfo_parse "chr17:41245466:G:A" "GRCh38").2 (by decide),
   (getVariantInfo_parse "1:2" "GRCh38").1 (by decide)⟩

/-- C7: for a non-empty-list variant response, format_variant_data raises
an index error exactly when splitting the first element allele_string on
"/" yields fewer than two parts; otherwise part 0 is the reference and
part 1 the alternate. -/
theorem formatVariantData_allele_split (fv : VariantFirst) (rest : List VariantFirst)
    (ip : Bool) :
    ((pySplit (fv.allele_string.getD "") '/').length < 2 ↔
      formatVariantData (.pylist (fv :: rest)) ip = .error .indexError) ∧
    (2 ≤ (pySplit (fv.allele_string.getD "") '/').length →
      Except.map (fun r => (r.reference, r.alternate))
        (formatVariantData (.pylist (fv :: rest)) ip) =
        .ok (some ((pySplit (fv.allele_string.getD "") '/').getD 0 ""),
          some ((pySplit (fv.allele_string.getD "") '/').getD 1 ""))) := by
  by_cases h : (pySplit (fv.allele_string.getD "") '/').length < 2
  · refine ⟨⟨fun _ => ?_, fun _ => h⟩, fun h2 => absurd h (Nat.not_lt.mpr h2)⟩
    simp [formatVariantData, h]
  · refine ⟨⟨fun hlt => absurd hlt h, fun he => ?_⟩, fun _ => ?_⟩
    · revert he
      simp [formatVariantData, h]
    · simp [formatVariantData, h, Except.map]

/-- C7 witness: allele string "G/A" splits into two parts and yields
reference "G" and alternate "A" exactly. -/
theorem formatVariantData_allele_split_witness :
    2 ≤ (pySplit (alleleOnlyVariant.allele_string.getD "") '/').length ∧
    Except.map (fun r => (r.reference, r.alternate))
      (formatVariantData (.pylist [alleleOnlyVariant]) false) =
      .ok (some "G", some "A") :=
  ⟨by decide, (formatVariantData_allele_split alleleOnlyVariant [] false).2 (by decide)⟩

/-- C8: when the first element of a non-empty variant response has a
non-empty transcript_consequences list whose first element carries both
amino_acids and protein_start, the consequence field is "p." followed by
the amino-acid string with every "/" replaced by the literal "to",
followed by the protein position. -/
theorem formatVariantData_consequence (fv : VariantFirst) (rest : List VariantFirst)
    (ip : Bool) (fc : TranscriptConsequence) (tcs : List TranscriptConsequence)
    (aa : String) (p : Int)
    (htc : fv.transcript_consequences = some (fc :: tcs))
    (haa : fc.amino_acids = some aa) (hp : fc.protein_start = some p)
    (hlen : 2 ≤ (pySplit (fv.allele_string.getD "") '/').length) :
    Except.map (fun r => r.consequence) (formatVariantData (.pylist (fv :: rest)) ip) =
      .ok (some ("p." ++ pyReplaceSlashTo aa ++ toString p)) := by
  simp [formatVariantData, Nat.not_lt.mpr hlen, htc, haa, hp, Except.map, optIntStr]

/-- C8 witness: amino acids "R/Q" at protein position 1699 yield exactly
"p.RtoQ1699". -/
theorem formatVariantData_consequence_witness :
    consequenceVariant.transcript_consequences =
      some [{ amino_acids := some "R/Q", protein_start := some 1699 }] ∧
    Except.map (fun r => r.consequence)
      (formatVariantData (.pylist [consequenceVariant]) false) =
      .ok (some "p.RtoQ1699") :=
  ⟨rfl, formatVariantData_consequence consequenceVariant [] false
    { amino_acids := some "R/Q", protein_start := some 1699 } [] "R/Q" 1699
    rfl rfl rfl (by decide)⟩

/-- C3 counterexample: with the gnomAD frequency in the first colocated
entry and the 1000GENOMES frequency in a later one, global_frequency is
the 1000GENOMES value 1/5, not the gnomAD value 1/10 — the loop lets
later frequency-carrying entries overwrite earlier ones. -/
theorem formatVariantData_gnomad_counterexample :
    Except.map (fun r => r.global_frequency)
      (formatVariantData (.pylist [splitSourcesVariant]) false) =
      .ok (some (.q (1/5))) ∧ (1:ℚ)/5 ≠ 1/10 :=
  ⟨rfl, by norm_num⟩

/-- C3 amended: the gnomAD source is preferred over 1000GENOMES within
one colocated entry: when the first element has a single colocated entry
whose frequency map carries both a gnomAD and a 1000GENOMES table, the
global frequency is the gnomAD table value at the alternate allele.
Across several colocated entries the last frequency-carrying entry
overwrites earlier ones, so the gnomAD value of an earlier entry can be
discarded. -/
theorem formatVariantData_gnomad_preferred (fv : VariantFirst) (c : ColocatedVariant)
    (freqs : FreqTable) (gm g1k : List (String × ℚ)) (ip : Bool)
    (hcoloc : fv.colocated_variants = some [c])
    (hfreqs : c.frequencies = some freqs)
    (hgm : List.lookup "gnomAD" freqs = some gm)
    (_hg1k : List.lookup "1000GENOMES" freqs = some g1k)
    (hlen : 2 ≤ (pySplit (fv.allele_string.getD "") '/').length) :
    Except.map (fun r => r.global_frequency) (formatVariantData (.pylist [fv]) ip) =
      .ok (some (freqGet gm ((pySplit (fv.allele_string.getD "") '/').getD 1 ""))) := by
  simp [formatVariantData, Nat.not_lt.mpr hlen, hcoloc, globalFrequency, hfreqs, hgm,
    Except.map]

/-- C3 witness: both sources in one colocated entry for alternate allele
"A": the gnomAD value 1/10 is taken. -/
theorem formatVariantData_gnomad_preferred_witness :
    bothSourcesVariant.colocated_variants = some [bothEntry] ∧
    Except.map (fun r => r.global_frequency)
      (formatVariantData (.pylist [bothSourcesVariant]) false) =
      .ok (some (.q (1/10))) :=
  ⟨rfl, formatVariantData_gnomad_preferred bothSourcesVariant bothEntry
    [("gnomAD", [("A", 1/10)]), ("1000GENOMES", [("A", 1/5)])]
    [("A", 1/10)] [("A", 1/5)] false rfl rfl rfl rfl (by decide)⟩

/-- When less than the minimum interval has elapsed, _make_request sleeps
exactly the remaining fraction of the interval. -/
theorem makeRequest_sleep_pos (api : EnsemblAPI) (now lat : ℚ) (ok : Bool)
    (h : now - api.last_request_time < api.rate_limit) :
    (makeRequest api now lat ok).slept = true ∧
    (makeRequest api now lat ok).sleep_before
      = api.rate_limit - (now - api.last_request_time) :=
  ⟨by simp [makeRequest, h], by simp [makeRequest, h]⟩

/-- When at least the minimum interval has elapsed, _make_request does
not sleep. -/
theorem makeRequest_no_sleep (api : EnsemblAPI) (now lat : ℚ) (ok : Bool)
    (h : api.rate_limit ≤ now - api.last_request_time) :
    (makeRequest api now lat ok).slept = false ∧
    (makeRequest api now lat ok).sleep_before = 0 :=
  ⟨by simp [makeRequest, not_lt.mpr h], by simp [makeRequest, not_lt.mpr h]⟩

/-- C4: _make_request sleeps exactly (interval - elapsed) when the time
elapsed since last_request_time is below the configured interval, and
performs no sleep otherwise; in particular, from a fresh dispatcher with
interval 1/10, a first call at a time at least 1/10 does not sleep, and a
second call whose clock has advanced by only 1/20 past the updated
last_request_time sleeps exactly 1/20 — exactly one sleep across the two
calls. -/
theorem makeRequest_throttle (api : EnsemblAPI) (now lat : ℚ) (ok : Bool)
    (t1 lat1 : ℚ) (ok1 ok2 : Bool) (h1 : (1:ℚ)/10 ≤ t1) :
    (now - api.last_request_time < api.rate_limit →
      (makeRequest api now lat ok).slept = true ∧
      (makeRequest api now lat ok).sleep_before
        = api.rate_limit - (now - api.last_request_time)) ∧
    (api.rate_limit ≤ now - api.last_request_time →
      (makeRequest api now lat ok).slept = false ∧
      (makeRequest api now lat ok).sleep_before = 0) ∧
    ((makeRequest (EnsemblAPI.init (1/10)) t1 lat1 ok1).slept = false ∧
      (makeRequest (makeRequest (EnsemblAPI.init (1/10)) t1 lat1 ok1).nextState
        ((makeRequest (EnsemblAPI.init (1/10)) t1 lat1 ok1).nextState.last_request_time
          + 1/20) 0 ok2).slept = true ∧
      (makeRequest (makeRequest (EnsemblAPI.init (1/10)) t1 lat1 ok1).nextState
        ((makeRequest (EnsemblAPI.init (1/10)) t1 lat1 ok1).nextState.last_request_time
          + 1/20) 0 ok2).sleep_before = 1/20) := by
  refine ⟨makeRequest_sleep_pos api now lat ok, makeRequest_no_sleep api now lat ok, ?_, ?_, ?_⟩
  · exact (makeRequest_no_sleep (EnsemblAPI.init (1/10)) t1 lat1 ok1
      (by simp [EnsemblAPI.init]; linarith)).1
  · exact (makeRequest_sleep_pos (makeRequest (EnsemblAPI.init (1/10)) t1 lat1 ok1).nextState
      ((makeRequest (EnsemblAPI.init (1/10)) t1 lat1 ok1).nextState.last_request_time + 1/20)
      0 ok2 (by simp [makeRequest, EnsemblAPI.init]; norm_num)).1
  · refine ((makeRequest_sleep_pos (makeRequest (EnsemblAPI.init (1/10)) t1 lat1 ok1).nextState
      ((makeRequest (EnsemblAPI.init (1/10)) t1 lat1 ok1).nextState.last_request_time + 1/20)
      0 ok2 (by simp [makeRequest, EnsemblAPI.init]; norm_num)).2.trans ?_)
    simp [makeRequest, EnsemblAPI.init]
    norm_num

/-- C4 witness: first call at time 5, second 1/20 later: no sleep then a
sleep of exactly 1/20. -/
theorem makeRequest_throttle_witness :
    (1:ℚ)/10 ≤ 5 ∧
    ((makeRequest (EnsemblAPI.init (1/10)) 5 0 true).slept = false ∧
      (makeRequest (makeRequest (EnsemblAPI.init (1/10)) 5 0 true).nextState
        ((makeRequest (EnsemblAPI.init (1/10)) 5 0 true).nextState.last_request_time
          + 1/20) 0 true).slept = true ∧
      (makeRequest (makeRequest (EnsemblAPI.init (1/10)) 5 0 true).nextState
        ((makeRequest (EnsemblAPI.init (1/10)) 5 0 true).nextState.last_request_time
          + 1/20) 0 true).sleep_before = 1/20) :=
  ⟨by norm_num,
   (makeRequest_throttle (EnsemblAPI.init (1/10)) 0 0 true 5 0 true true (by norm_num)).2.2⟩

end VariantExplorer
